import Mathlib

/-!
Verification of the Across bridge automation orchestrator.

The JavaScript sources are embedded shallowly:
* JS objects used as finite maps become association lists / `Option`-valued
  lookups; an absent property is `none`.
* JS object keys of the token registry are either a numeric chain id
  (`TOKENS[sym][chainId]`) or the string `` `${chainId}-bridged` ``; since a
  decimal numeral never contains a dash, the key space is faithfully
  represented by the inductive type `TokenKey`.
* JS numbers carrying token amounts / ratios are modelled as exact rationals
  (the specification fixes real-number division semantics for the threshold
  evaluator); BigInt amounts are `Nat`.
* A JS function that can `throw` is modelled with `Except String` (the error
  message), external calls (SDK, HTTP, file system) by explicit outcome
  parameters, and `try`/`catch` by matching on those outcomes.
* JS truthiness tests are modelled explicitly where a falsy non-`undefined`
  value is possible (`0` for numbers, `""` for strings).
-/

namespace Across

/-- Key of a per-token chain map in the token registry: a plain numeric chain
id, or the `"<chainId>-bridged"` variant key. -/
inductive TokenKey where
  | plain (chainId : Nat)
  | bridged (chainId : Nat)
deriving DecidableEq, Repr

/-- JS object property access by key on an association-list map. -/
def lookupKey (k : TokenKey) : List (TokenKey × String) → Option String
  | [] => none
  | (k', v) :: rest => if k = k' then some v else lookupKey k rest

/-- `TOKENS.ETH` from config.js. -/
def ethAddresses : List (TokenKey × String) := [
  (TokenKey.plain 1, "0xC02aaA39b223FE8D0A0e5C4F27eAD9083C756Cc2"),
  (TokenKey.plain 10, "0x4200000000000000000000000000000000000006"),
  (TokenKey.plain 42161, "0x82aF49447D8a07e3bd95BD0d56f35241523fBab1"),
  (TokenKey.plain 8453, "0x4200000000000000000000000000000000000006"),
  (TokenKey.plain 137, "0x7ceB23fD6bC0adD59E62ac25578270cFf1b9f619"),
  (TokenKey.plain 324, "0x5AEa5775959fBC2557Cc8789bC1bf90A239D9a91"),
  (TokenKey.plain 59144, "0xe5D7C2a44FfDDf6b295A15c148167daaAf5Cf34f"),
  (TokenKey.plain 81457, "0x4300000000000000000000000000000000000004"),
  (TokenKey.plain 534352, "0x5300000000000000000000000000000000000004"),
  (TokenKey.plain 34443, "0x4200000000000000000000000000000000000006"),
  (TokenKey.plain 7777777, "0x4200000000000000000000000000000000000006")]

/-- `TOKENS.USDC` from config.js (the only token with bridged-variant keys). -/
def usdcAddresses : List (TokenKey × String) := [
  (TokenKey.plain 1, "0xA0b86991c6218b36c1d19D4a2e9Eb0cE3606eB48"),
  (TokenKey.plain 10, "0x0b2C639c533813f4Aa9D7837CAf62653d097Ff85"),
  (TokenKey.bridged 10, "0x7F5c764cBc14f9669B88837ca1490cCa17c31607"),
  (TokenKey.plain 42161, "0xaf88d065e77c8cC2239327C5EDb3A432268e5831"),
  (TokenKey.bridged 42161, "0xFF970A61A04b1cA14834A43f5dE4533eBDDB5CC8"),
  (TokenKey.plain 8453, "0x833589fCD6eDb6E08f4c7C32D4f71b54bdA02913"),
  (TokenKey.bridged 8453, "0xd9aAEc86B65D86f6A7B5B1b0c42FFA531710b6CA"),
  (TokenKey.plain 137, "0x3c499c542cEF5E3811e1192ce70d8cC03d5c3359"),
  (TokenKey.bridged 137, "0x2791Bca1f2de4661ED88A30C99A7a9449Aa84174"),
  (TokenKey.plain 324, "0x3355df6D4c9C3035724Fd0e3914dE96A5a83aaf4"),
  (TokenKey.plain 34443, "0xd988097fb8612cc24eeC14542bC03424c656005f"),
  (TokenKey.plain 534352, "0x06eFdBFf2a14a7c8E15944D1F4A48F9F95F663A4")]

/-- `TOKENS.USDT` from config.js. -/
def usdtAddresses : List (TokenKey × String) := [
  (TokenKey.plain 1, "0xdAC17F958D2ee523a2206206994597C13D831ec7"),
  (TokenKey.plain 10, "0x94b008aA00579c1307B0EF2c499aD98a8ce58e58"),
  (TokenKey.plain 137, "0xc2132D05D31c914a87C6611C10748AEb04B58e8F"),
  (TokenKey.plain 42161, "0xFd086bC7CD5C481DCC9C85ebE478A1C0b69FCbb9")]

/-- `TOKENS.WBTC` from config.js. -/
def wbtcAddresses : List (TokenKey × String) := [
  (TokenKey.plain 1, "0x2260FAC5E5542a773Aa44fBCfeDf7C193bc2C599"),
  (TokenKey.plain 10, "0x68f180fcCe6836688e9084f035309E29Bf0A2095"),
  (TokenKey.plain 42161, "0x2f2a2543B76A4166549F7aaB2e75Bef0aefC5B0f"),
  (TokenKey.plain 137, "0x1BFD67037B42Cf73acF2047067bd4F2C47D9BfD6")]

/-- The token registry `TOKENS` of config.js: token symbol to per-chain
address map; an unknown symbol is an absent property. -/
def TOKENS (tokenSymbol : String) : Option (List (TokenKey × String)) :=
  if tokenSymbol = "ETH" then some ethAddresses
  else if tokenSymbol = "USDC" then some usdcAddresses
  else if tokenSymbol = "USDT" then some usdtAddresses
  else if tokenSymbol = "WBTC" then some wbtcAddresses
  else none

/-- JS truthiness of a string value (only the empty string is falsy). -/
def jsTruthyStr (s : String) : Bool := s != ""

/-- The JS test-and-read pattern `TOKENS[sym] && TOKENS[sym][key]`: the
registry entry when the symbol is present and the stored value truthy. -/
def registryLookup (tokenSymbol : String) (k : TokenKey) : Option String :=
  match TOKENS tokenSymbol with
  | some chainMap =>
    match lookupKey k chainMap with
    | some addr => if jsTruthyStr addr then some addr else none
    | none => none
  | none => none

/-- `getTokenAddress` from helper.js. Throwing the NotSupported error is
`Except.error` with the thrown message. -/
def getTokenAddress (tokenSymbol : String) (chainId : Nat)
    (useBridged : Bool := false) : Except String String :=
  -- For tokens that have both native and bridged versions
  let bridgedHit : Option String :=
    if useBridged && ["USDC"].contains tokenSymbol then
      registryLookup tokenSymbol (TokenKey.bridged chainId)
    else none
  match bridgedHit with
  | some addr => Except.ok addr
  | none =>
    -- Standard token lookup
    match registryLookup tokenSymbol (TokenKey.plain chainId) with
    | some addr => Except.ok addr
    | none =>
      Except.error ("Token " ++ tokenSymbol ++ " not supported on chain "
        ++ toString chainId)

/-- The `"<chainId>-bridged"` registry entry for a symbol, if any. -/
def bridgedEntry (tokenSymbol : String) (chainId : Nat) : Option String :=
  (TOKENS tokenSymbol).bind (fun chainMap => lookupKey (TokenKey.bridged chainId) chainMap)

/-- The plain chain-id registry entry for a symbol, if any. -/
def plainEntry (tokenSymbol : String) (chainId : Nat) : Option String :=
  (TOKENS tokenSymbol).bind (fun chainMap => lookupKey (TokenKey.plain chainId) chainMap)

/-- A successful association-list lookup returns one of the stored values. -/
theorem lookupKey_val_mem {l : List (TokenKey × String)} {k : TokenKey} {v : String}
    (h : lookupKey k l = some v) : v ∈ l.map Prod.snd := by
  induction l with
  | nil => simp [lookupKey] at h
  | cons p t ih =>
    obtain ⟨k', v'⟩ := p
    rw [lookupKey] at h
    by_cases hk : k = k'
    · rw [if_pos hk] at h
      cases h
      exact List.mem_cons_self _ _
    · rw [if_neg hk] at h
      exact List.mem_cons_of_mem _ (ih h)

/-- Every address stored in the token registry is a truthy (nonempty) string. -/
theorem registry_values_truthy {tokenSymbol : String} {chainMap : List (TokenKey × String)}
    (hm : TOKENS tokenSymbol = some chainMap) {k : TokenKey} {v : String}
    (h : lookupKey k chainMap = some v) : jsTruthyStr v = true := by
  have hv := lookupKey_val_mem h
  unfold TOKENS at hm
  by_cases h1 : tokenSymbol = "ETH"
  · rw [if_pos h1] at hm
    cases hm
    exact (by decide : ∀ x ∈ ethAddresses.map Prod.snd, jsTruthyStr x = true) v hv
  · rw [if_neg h1] at hm
    by_cases h2 : tokenSymbol = "USDC"
    · rw [if_pos h2] at hm
      cases hm
      exact (by decide : ∀ x ∈ usdcAddresses.map Prod.snd, jsTruthyStr x = true) v hv
    · rw [if_neg h2] at hm
      by_cases h3 : tokenSymbol = "USDT"
      · rw [if_pos h3] at hm
        cases hm
        exact (by decide : ∀ x ∈ usdtAddresses.map Prod.snd, jsTruthyStr x = true) v hv
      · rw [if_neg h3] at hm
        by_cases h4 : tokenSymbol = "WBTC"
        · rw [if_pos h4] at hm
          cases hm
          exact (by decide : ∀ x ∈ wbtcAddresses.map Prod.snd, jsTruthyStr x = true) v hv
        · rw [if_neg h4] at hm
          cases hm

/-- The truthiness filter in `registryLookup` never fires: the guarded access
agrees with the plain registry entry. -/
theorem registryLookup_eq_entry (tokenSymbol : String) (k : TokenKey) :
    registryLookup tokenSymbol k
      = (TOKENS tokenSymbol).bind (fun chainMap => lookupKey k chainMap) := by
  unfold registryLookup
  cases hm : TOKENS tokenSymbol with
  | none => rfl
  | some chainMap =>
    cases hl : lookupKey k chainMap with
    | none => simp [hl]
    | some addr => simp [hl, registry_values_truthy hm hl]

/-- Only the USDC chain map carries bridged-variant keys. -/
theorem bridged_only_usdc {tokenSymbol : String} (h : tokenSymbol ≠ "USDC")
    (chainId : Nat) : bridgedEntry tokenSymbol chainId = none := by
  unfold bridgedEntry TOKENS
  by_cases h1 : tokenSymbol = "ETH"
  · rw [if_pos h1]; rfl
  · rw [if_neg h1, if_neg h]
    by_cases h3 : tokenSymbol = "USDT"
    · rw [if_pos h3]; rfl
    · rw [if_neg h3]
      by_cases h4 : tokenSymbol = "WBTC"
      · rw [if_pos h4]; rfl
      · rw [if_neg h4]; rfl

/-- C1: for every token symbol, chain id and bridged flag, `getTokenAddress`
returns the bridged-variant registry entry when the flag is set and such an
entry exists, otherwise the plain chain-id entry, and fails with the
NotSupported error exactly when neither entry exists. -/
theorem C1_getTokenAddress_spec (tokenSymbol : String) (chainId : Nat)
    (useBridged : Bool) :
    getTokenAddress tokenSymbol chainId useBridged =
      match (if useBridged then bridgedEntry tokenSymbol chainId else none) with
      | some addr => Except.ok addr
      | none =>
        match plainEntry tokenSymbol chainId with
        | some addr => Except.ok addr
        | none =>
          Except.error ("Token " ++ tokenSymbol ++ " not supported on chain "
            ++ toString chainId) := by
  unfold getTokenAddress
  rw [registryLookup_eq_entry tokenSymbol (TokenKey.plain chainId)]
  cases useBridged with
  | false => rfl
  | true =>
    by_cases hs : tokenSymbol = "USDC"
    · subst hs
      rw [registryLookup_eq_entry _ (TokenKey.bridged chainId)]
      rfl
    · have hc : (["USDC"].contains tokenSymbol) = false := by
        simp [List.contains_cons, hs]
      rw [bridged_only_usdc hs chainId]
      simp only [hc, Bool.and_false]
      unfold plainEntry
      rfl

/-- `TOKEN_DECIMALS` from config.js. -/
def TOKEN_DECIMALS (tokenSymbol : String) : Option Nat :=
  if tokenSymbol = "ETH" then some 18
  else if tokenSymbol = "WETH" then some 18
  else if tokenSymbol = "USDC" then some 6
  else if tokenSymbol = "USDC.e" then some 6
  else if tokenSymbol = "USDT" then some 6
  else if tokenSymbol = "WBTC" then some 8
  else if tokenSymbol = "DAI" then some 18
  else none

/-- The `switch` fallback inside `getTokenDecimals`. -/
def defaultDecimals (tokenSymbol : String) : Nat :=
  if tokenSymbol = "ETH" || tokenSymbol = "WETH" then 18
  else if tokenSymbol = "USDC" || tokenSymbol = "USDC.e" || tokenSymbol = "USDT" then 6
  else if tokenSymbol = "WBTC" then 8
  else 18

/-- `getTokenDecimals` from helper.js; the `if (TOKEN_DECIMALS[sym])` guard is
presence plus number truthiness (`0` is falsy). -/
def getTokenDecimals (tokenSymbol : String) : Nat :=
  match TOKEN_DECIMALS tokenSymbol with
  | some d => if d = 0 then defaultDecimals tokenSymbol else d
  | none => defaultDecimals tokenSymbol

/-- The JS expression `operation.decimals || getTokenDecimals(sym)`: an absent
or falsy (zero) override falls back to the resolved decimals. -/
def jsNumOr (a : Option Nat) (b : Nat) : Nat :=
  match a with
  | some n => if n = 0 then b else n
  | none => b

/-- Retry block of `THRESHOLDS` (declared in config.js, never consulted). -/
structure RetrySettings where
  enabled : Bool
  maxAttempts : Nat
  delayMinutes : Nat
deriving Repr, DecidableEq

/-- Shape of the `THRESHOLDS` configuration object. -/
structure Thresholds where
  minOutputPercentage : ℚ
  maxFillTimeSeconds : ℚ
  retry : RetrySettings
deriving Repr, DecidableEq

/-- `THRESHOLDS` from config.js. -/
def THRESHOLDS : Thresholds :=
  { minOutputPercentage := 995 / 1000
    maxFillTimeSeconds := 60
    retry := { enabled := true, maxAttempts := 5, delayMinutes := 10 } }

/-- Notification switches of `MONITORING`. -/
structure NotificationSettings where
  onStart : Bool
  onThresholdFailure : Bool
  onExecutionStart : Bool
  onExecutionComplete : Bool
  onError : Bool
deriving Repr, DecidableEq

/-- Shape of the `MONITORING` configuration object. -/
structure Monitoring where
  statusPollingInterval : Nat
  maxPollingAttempts : Nat
  notifications : NotificationSettings
deriving Repr, DecidableEq

/-- `MONITORING` from config.js. -/
def MONITORING : Monitoring :=
  { statusPollingInterval := 10000
    maxPollingAttempts := 30
    notifications :=
      { onStart := true, onThresholdFailure := true, onExecutionStart := true
        onExecutionComplete := true, onError := true } }

/-- Shape of the `OPTIONS` configuration object. -/
structure Options where
  autoExecute : Bool
  maxSlippage : ℚ
  saveHistory : Bool
  historyFile : String
  verboseLogging : Bool
  showQuoteDetails : Bool
deriving Repr, DecidableEq

/-- `OPTIONS` from config.js. -/
def OPTIONS : Options :=
  { autoExecute := true
    maxSlippage := 5 / 10
    saveHistory := true
    historyFile := "transaction_history.json"
    verboseLogging := true
    showQuoteDetails := true }

/-- One entry of `BRIDGE_OPERATIONS`: a configured bridge operation. -/
structure Operation where
  name : String
  enabled : Bool
  tokenSymbol : String
  originChainId : Nat
  destinationChainId : Nat
  inputAmount : ℚ
  decimals : Option Nat
  useNativeToken : Bool
  useBridged : Bool
deriving Repr, DecidableEq

/-- `BRIDGE_OPERATIONS` from config.js. -/
def BRIDGE_OPERATIONS : List Operation := [
  { name := "ETH Arbitrum to Optimism", enabled := true, tokenSymbol := "ETH"
    originChainId := 10, destinationChainId := 42161
    inputAmount := 1 / 1000, decimals := some 18
    useNativeToken := true, useBridged := false },
  { name := "USDC Ethereum to Polygon", enabled := false, tokenSymbol := "USDC"
    originChainId := 1, destinationChainId := 137
    inputAmount := 10, decimals := some 6
    useNativeToken := false, useBridged := false },
  { name := "ETH Base to Ethereum", enabled := false, tokenSymbol := "ETH"
    originChainId := 8453, destinationChainId := 1
    inputAmount := 5 / 1000, decimals := some 18
    useNativeToken := true, useBridged := false }]

/-- `quote.deposit` as used by the orchestrator: amounts in smallest units. -/
structure QuoteDeposit where
  inputAmount : Nat
  outputAmount : Nat
deriving Repr, DecidableEq

/-- `quote.fees` totals (`totalRelayFee.total`, `lpFee.total`). -/
structure QuoteFees where
  totalRelayFeeTotal : Option Nat
  lpFeeTotal : Option Nat
deriving Repr, DecidableEq

/-- The SDK quote object, restricted to the fields the orchestrator reads. -/
structure Quote where
  deposit : QuoteDeposit
  fees : Option QuoteFees
  estimatedFillTimeSec : ℚ
deriving Repr, DecidableEq

/-- viem `parseUnits`: a human-readable decimal amount in smallest units. -/
def parseUnits (amount : ℚ) (decimals : Nat) : ℚ := amount * 10 ^ decimals

/-- viem `formatUnits`: a smallest-unit integer as a human-readable amount. -/
def formatUnits (value : Nat) (decimals : Nat) : ℚ := (value : ℚ) / 10 ^ decimals

/-- `quoteExceedsThresholds` from the orchestrator, with the ambient
`THRESHOLDS` global passed explicitly.  The JS `Number()` conversions and
float division are modelled as exact rational arithmetic — the real-number
division semantics the specification fixes for this evaluator (§4.3); every
numeral in the specification's worked example is exactly representable in
binary floating point and its exact quotient rounds to the same value as the
`0.995` literal, so the example's verdict is unaffected by this choice. -/
def quoteExceedsThresholdsWith (thresholds : Thresholds) (quote : Quote)
    (operation : Operation) : Bool :=
  let decimals := jsNumOr operation.decimals (getTokenDecimals operation.tokenSymbol)
  -- Convert amounts to compare them
  let parsedInputAmount := parseUnits operation.inputAmount decimals
  -- Calculate the output percentage relative to input
  let outputPercentage := (quote.deposit.outputAmount : ℚ) / parsedInputAmount
  let meetsOutputThreshold := decide (outputPercentage ≥ thresholds.minOutputPercentage)
  let meetsFillTimeThreshold := decide (quote.estimatedFillTimeSec ≤ thresholds.maxFillTimeSeconds)
  meetsOutputThreshold && meetsFillTimeThreshold

/-- `quoteExceedsThresholds` as called by the orchestrator. -/
def quoteExceedsThresholds (quote : Quote) (operation : Operation) : Bool :=
  quoteExceedsThresholdsWith THRESHOLDS quote operation

/-- The worked example of the specification: input 0.1 at 18 decimals. -/
def sampleOperation : Operation :=
  { name := "sample", enabled := true, tokenSymbol := "ETH"
    originChainId := 42161, destinationChainId := 10
    inputAmount := 1 / 10, decimals := some 18
    useNativeToken := true, useBridged := false }

/-- The worked example of the specification: output 0.0995 ETH, 45 s fill. -/
def sampleQuote : Quote :=
  { deposit := { inputAmount := 100000000000000000, outputAmount := 99500000000000000 }
    fees := none
    estimatedFillTimeSec := 45 }

/-- The worked example passes both threshold checks. -/
theorem sample_meets_thresholds :
    quoteExceedsThresholdsWith THRESHOLDS sampleQuote sampleOperation = true := by
  norm_num [quoteExceedsThresholdsWith, sampleQuote, sampleOperation, parseUnits,
    jsNumOr, THRESHOLDS]

/-- C4: the threshold evaluator accepts exactly when the output amount divided
by the recomputed smallest-unit input amount reaches `minOutputPercentage` and
the estimated fill time is at most `maxFillTimeSeconds`; the input amount is
recomputed from the operation (decimals override, else resolved decimals) and
no input field of the quote object is consulted — replacing
`quote.deposit.inputAmount` by any value leaves the verdict unchanged.  The
0.1-input / 0.0995-output / 45 s example is accepted. -/
theorem C4_quoteExceedsThresholds_spec :
    (∀ (quote : Quote) (operation : Operation),
      quoteExceedsThresholds quote operation = true ↔
        ((quote.deposit.outputAmount : ℚ) /
            (operation.inputAmount *
              10 ^ (jsNumOr operation.decimals (getTokenDecimals operation.tokenSymbol)))
          ≥ THRESHOLDS.minOutputPercentage
        ∧ quote.estimatedFillTimeSec ≤ THRESHOLDS.maxFillTimeSeconds))
    ∧ (∀ (quote : Quote) (operation : Operation) (v : Nat),
        quoteExceedsThresholds
          { quote with deposit := { quote.deposit with inputAmount := v } }
          operation
        = quoteExceedsThresholds quote operation)
    ∧ quoteExceedsThresholds sampleQuote sampleOperation = true := by
  refine ⟨?_, fun quote operation v => rfl, sample_meets_thresholds⟩
  intro quote operation
  simp [quoteExceedsThresholds, quoteExceedsThresholdsWith, parseUnits]

/-- C5: for a fixed quote and operation, lowering `minOutputPercentage` (with
the fill-time bound unchanged) preserves acceptance, so raising it can only
turn an accept into a reject. -/
theorem C5_thresholds_monotone (thresholds : Thresholds) (m' : ℚ)
    (quote : Quote) (operation : Operation)
    (hm : m' ≤ thresholds.minOutputPercentage)
    (h : quoteExceedsThresholdsWith thresholds quote operation = true) :
    quoteExceedsThresholdsWith { thresholds with minOutputPercentage := m' }
      quote operation = true := by
  simp only [quoteExceedsThresholdsWith, Bool.and_eq_true, decide_eq_true_eq] at h ⊢
  exact ⟨le_trans hm h.1, h.2⟩

/-- Witness for C5 at the specification's worked example. -/
theorem C5_thresholds_monotone_witness :
    ((99 : ℚ) / 100 ≤ THRESHOLDS.minOutputPercentage
      ∧ quoteExceedsThresholdsWith THRESHOLDS sampleQuote sampleOperation = true)
    ∧ quoteExceedsThresholdsWith
        { THRESHOLDS with minOutputPercentage := 99 / 100 }
        sampleQuote sampleOperation = true := by
  refine ⟨⟨by norm_num [THRESHOLDS], sample_meets_thresholds⟩, ?_⟩
  exact C5_thresholds_monotone THRESHOLDS (99 / 100) sampleQuote sampleOperation
    (by norm_num [THRESHOLDS]) sample_meets_thresholds

/-- JS `String.prototype.toLowerCase` (per-character lowering; the statuses
involved are ASCII). -/
def jsToLower (s : String) : String := String.mk (s.data.map Char.toLower)

/-- One poll round trip as the poller observes it: `some s` is a 2xx response
whose body carries the status string `s`; `none` is a request error (network
failure, non-2xx, or a body without a readable status), which the `catch`
inside the loop absorbs. -/
abbrev StatusResponses := Nat → Option String

/-- The `while (!completed && attempts < max)` loop of `pollDepositStatus`,
by remaining attempts; the second result component is the number of attempts
consumed.  Attempt `attempts` reads `responses attempts`. -/
def pollStatusLoop (responses : StatusResponses) :
    Nat → Nat → Bool × Nat
  | 0, attempts => (false, attempts)
  | remaining + 1, attempts =>
    match responses attempts with
    | some rawStatus =>
      let statusLower := jsToLower rawStatus
      -- Check for successful completion
      if statusLower = "filled" ∨ statusLower = "success" then (true, attempts + 1)
      else if statusLower = "failed" then (false, attempts + 1)
      -- Added check for "fill" or "filled" status to consider it complete
      else if statusLower = "fill" ∨ statusLower = "filled" then (true, attempts + 1)
      else pollStatusLoop responses remaining (attempts + 1)
    | none => pollStatusLoop responses remaining (attempts + 1)

/-- `pollDepositStatus` from the orchestrator, with the ambient `MONITORING`
global passed explicitly; the chain id and deposit id only select the status
endpoint URL, whose behaviour is the `responses` function. -/
def pollDepositStatusWith (monitoring : Monitoring) (originChainId : Nat)
    (depositId : Nat) (responses : StatusResponses) : Bool × Nat :=
  pollStatusLoop responses monitoring.maxPollingAttempts 0

/-- Classification of one poll response by the specification's words:
`some true` on the terminal-success set, `some false` on terminal failure,
`none` for "in progress" and for request errors. -/
def statusClassify (response : Option String) : Option Bool :=
  match response with
  | some rawStatus =>
    let statusLower := jsToLower rawStatus
    if statusLower = "filled" ∨ statusLower = "success" ∨ statusLower = "fill" then
      some true
    else if statusLower = "failed" then some false
    else none
  | none => none

/-- Modelled from the spec: poll up to the remaining attempt budget, returning
at the first terminal response and `false` when the budget is exhausted. -/
def pollSpecLoop (responses : StatusResponses) : Nat → Nat → Bool × Nat
  | 0, attempts => (false, attempts)
  | remaining + 1, attempts =>
    match statusClassify (responses attempts) with
    | some b => (b, attempts + 1)
    | none => pollSpecLoop responses remaining (attempts + 1)

/-- The poller's loop decides each response exactly as the specification's
classification does. -/
theorem pollStatusLoop_eq_spec (responses : StatusResponses) :
    ∀ remaining attempts,
      pollStatusLoop responses remaining attempts
        = pollSpecLoop responses remaining attempts := by
  intro remaining
  induction remaining with
  | zero => intro attempts; rfl
  | succ n ih =>
    intro attempts
    rw [pollStatusLoop, pollSpecLoop]
    cases hr : responses attempts with
    | none => exact ih (attempts + 1)
    | some rawStatus =>
      simp only [statusClassify]
      by_cases h1 : jsToLower rawStatus = "filled"
      · simp [h1]
      · by_cases h2 : jsToLower rawStatus = "success"
        · simp [h1, h2]
        · by_cases h3 : jsToLower rawStatus = "failed"
          · simp [h1, h2, h3]
          · by_cases h4 : jsToLower rawStatus = "fill"
            · simp [h1, h2, h3, h4]
            · simp only [h1, h2, h3, h4, or_self, if_false, or_false, false_or]
              exact ih (attempts + 1)

/-- The in-progress status string. -/
def pendingStatus : String := "pending"

/-- The terminal-success status string. -/
def filledStatus : String := "filled"

/-- A response stream that is "pending" forever. -/
def allPendingResponses : StatusResponses := fun _ => some pendingStatus

/-- Exhausting the budget on non-terminal responses consumes every attempt and
returns `false`. -/
theorem pollStatusLoop_all_pending :
    ∀ remaining attempts,
      pollStatusLoop allPendingResponses remaining attempts
        = (false, remaining + attempts) := by
  have step : ∀ n attempts,
      pollStatusLoop allPendingResponses (n + 1) attempts
        = pollStatusLoop allPendingResponses n (attempts + 1) := by
    intro n attempts
    rfl
  intro remaining
  induction remaining with
  | zero => intro attempts; simp [pollStatusLoop]
  | succ n ih =>
    intro attempts
    rw [step, ih (attempts + 1)]
    have harith : n + (attempts + 1) = n + 1 + attempts := by omega
    rw [harith]

/-- The specification's three-poll example: pending, pending, filled. -/
def pendingPendingFilled : StatusResponses := fun i =>
  if i = 0 then some pendingStatus
  else if i = 1 then some pendingStatus
  else if i = 2 then some filledStatus
  else none

/-- C2: the poller returns `true` at the first response whose lower-cased
status is in `{filled, success, fill}`, `false` at the first `failed`, retries
(consuming one attempt) on any other status and on request errors, and returns
`false` when the attempt budget is exhausted; the sequence pending, pending,
filled over a budget of 3 returns `true` after exactly 3 attempts, and an
all-pending stream returns `false` after consuming the whole budget. -/
theorem C2_pollDepositStatus_spec :
    (∀ (monitoring : Monitoring) (originChainId depositId : Nat)
        (responses : StatusResponses),
      pollDepositStatusWith monitoring originChainId depositId responses
        = pollSpecLoop responses monitoring.maxPollingAttempts 0)
    ∧ pollDepositStatusWith { MONITORING with maxPollingAttempts := 3 } 42161 42
        pendingPendingFilled = (true, 3)
    ∧ (∀ budget : Nat,
        pollDepositStatusWith { MONITORING with maxPollingAttempts := budget } 42161 42
          allPendingResponses = (false, budget)) := by
  refine ⟨?_, ?_, ?_⟩
  · intro monitoring originChainId depositId responses
    exact pollStatusLoop_eq_spec responses monitoring.maxPollingAttempts 0
  · decide
  · intro budget
    unfold pollDepositStatusWith
    rw [pollStatusLoop_all_pending budget 0]
    simp

/-- The mutable `result` object of `executeQuote`. -/
structure ExecResult where
  success : Bool
  depositId : Option Nat
  originTxHash : Option String
  destinationTxHash : Option String
  error : Option String
deriving Repr, DecidableEq

/-- The `result` object as initialised at the top of `executeQuote`. -/
def initialExecResult : ExecResult :=
  { success := false, depositId := none, originTxHash := none
    destinationTxHash := none, error := none }

/-- One `onProgress` notification from the SDK execution call, restricted to
the fields the callback reads; `txReceiptHash` is
`progress.txReceipt.transactionHash` when a receipt is attached. -/
structure ProgressEvent where
  step : String
  status : String
  depositId : Option Nat
  txReceiptHash : Option String
  fillTxTimestamp : Option Int
deriving Repr, DecidableEq

/-- The `onProgress` callback of `executeQuote` as a fold step: the `approve`
branches and the `fill` timestamp rendering only log. -/
def applyProgress (result : ExecResult) (progress : ProgressEvent) : ExecResult :=
  let afterDeposit :=
    if progress.step = "deposit" ∧ progress.status = "txSuccess" then
      { result with depositId := progress.depositId
                    originTxHash := progress.txReceiptHash }
    else result
  if progress.step = "fill" ∧ progress.status = "txSuccess" then
    let marked := { afterDeposit with success := true }
    match progress.txReceiptHash with
    | some h => { marked with destinationTxHash := some h }
    | none => marked
  else afterDeposit

/-- `executeQuote` from the orchestrator.  `events` are the progress
notifications delivered by `client.executeQuote` before it returned or threw;
`raised = some e` means the underlying execution call threw with message `e`,
in which case the `catch` discards the tracked result and returns a fresh
`{ success: false, error: e }` object. -/
def executeQuote (quote : Quote) (operation : Operation)
    (events : List ProgressEvent) (raised : Option String) : ExecResult :=
  let result := events.foldl applyProgress initialExecResult
  match raised with
  | none => result
  | some e =>
    { success := false, depositId := none, originTxHash := none
      destinationTxHash := none, error := some e }

/-- C7: when the underlying execution call throws, `executeQuote` catches the
exception and returns a failure result carrying the error message (and nothing
else); no exception escapes to the orchestrator. -/
theorem C7_executeQuote_catches (quote : Quote) (operation : Operation)
    (events : List ProgressEvent) (e : String) :
    executeQuote quote operation events (some e)
      = { success := false, depositId := none, originTxHash := none
          destinationTxHash := none, error := some e } := rfl

/-- The normalized operation snapshot stored in a history record. -/
structure SafeOperation where
  name : String
  tokenSymbol : String
  originChainId : Nat
  destinationChainId : Nat
  inputAmount : String
deriving Repr, DecidableEq

/-- The per-record fee breakdown (`relayFee`, `lpFee`), human-readable. -/
structure FeeRecord where
  relayFee : ℚ
  lpFee : ℚ
deriving Repr, DecidableEq

/-- The normalized result snapshot stored in a history record. -/
structure SafeResult where
  success : Bool
  depositId : Option String
  originTxHash : Option String
  destinationTxHash : Option String
  error : Option String
  outputAmount : Option ℚ
  fees : Option FeeRecord
deriving Repr, DecidableEq

/-- One appended history record. -/
structure HistoryEntry where
  timestamp : String
  operation : SafeOperation
  result : SafeResult
deriving Repr, DecidableEq

/-- State of the history file on disk, as the recorder's read step can see
it: absent, unreadable (`readFileSync` throws), readable but not valid JSON
(`JSON.parse` throws), or a well-formed record array. -/
inductive HistoryFileState where
  | missing
  | unreadable
  | malformed
  | wellFormed (records : List HistoryEntry)
deriving DecidableEq

/-- JS `x ? x.toString() : null` on an optional number (`0` is falsy). -/
def jsNatToStringOrNull (x : Option Nat) : Option String :=
  match x with
  | some n => if n = 0 then none else some (toString n)
  | none => none

/-- JS `x || null` on an optional string (the empty string is falsy). -/
def jsStrOrNull (x : Option String) : Option String :=
  match x with
  | some s => if s = "" then none else some s
  | none => none

/-- The `safeOperation` snapshot built by `saveTransactionToHistory`. -/
def mkSafeOperation (operation : Operation) : SafeOperation :=
  { name := operation.name
    tokenSymbol := operation.tokenSymbol
    originChainId := operation.originChainId
    destinationChainId := operation.destinationChainId
    inputAmount := toString operation.inputAmount }

/-- The `safeResult` snapshot built by `saveTransactionToHistory`, including
the optional quote-derived output amount and fee breakdown. -/
def mkSafeResult (operation : Operation) (result : ExecResult)
    (quote : Option Quote) : SafeResult :=
  let base : SafeResult :=
    { success := result.success
      depositId := jsNatToStringOrNull result.depositId
      originTxHash := jsStrOrNull result.originTxHash
      destinationTxHash := jsStrOrNull result.destinationTxHash
      error := jsStrOrNull result.error
      outputAmount := none
      fees := none }
  -- Add output amount if available from quote (0 is falsy)
  match quote with
  | some q =>
    if q.deposit.outputAmount ≠ 0 then
      let decimals := jsNumOr operation.decimals (getTokenDecimals operation.tokenSymbol)
      let withOutput := { base with
        outputAmount := some (formatUnits q.deposit.outputAmount decimals) }
      match q.fees with
      | some f =>
        let relay : ℚ :=
          match f.totalRelayFeeTotal with
          | some t => formatUnits t decimals
          | none => 0
        let lp : ℚ :=
          match f.lpFeeTotal with
          | some t => formatUnits t decimals
          | none => 0
        { withOutput with fees := some { relayFee := relay, lpFee := lp } }
      | none => withOutput
    else base
  | none => base

/-- `saveTransactionToHistory` from the orchestrator, with the ambient
`OPTIONS` global passed explicitly.  `writeOk` is the outcome of
`fs.writeFileSync` (a throw is caught and only logged); `now` is the record
timestamp.  The read `try`/`catch` turns an absent, unreadable or unparsable
file into the empty list. -/
def saveTransactionToHistoryWith (opts : Options) (writeOk : Bool) (now : String)
    (operation : Operation) (result : ExecResult) (quote : Option Quote)
    (fs : HistoryFileState) : HistoryFileState :=
  if !opts.saveHistory then fs
  else
    -- Try to read existing history
    let history : List HistoryEntry :=
      match fs with
      | HistoryFileState.wellFormed records => records
      | _ => []
    -- Add new transaction with safe values
    let newHistory := history ++
      [{ timestamp := now
         operation := mkSafeOperation operation
         result := mkSafeResult operation result quote }]
    -- Save updated history; a write failure is logged, not propagated
    if writeOk then HistoryFileState.wellFormed newHistory else fs

/-- The number of records the on-disk file holds, when it is well-formed. -/
def historyLength (fs : HistoryFileState) : Option Nat :=
  match fs with
  | HistoryFileState.wellFormed records => some records.length
  | _ => none

/-- C6: the recorder is resilient to history-file failures: a missing,
unreadable or unparsable file is treated as an empty list (so the append
yields a one-element array, and appending to a one-record file yields two
records), and a write failure leaves the file untouched and is not
propagated (the recorder still returns normally). -/
theorem C6_saveTransactionToHistory_resilient (now : String)
    (operation : Operation) (result : ExecResult) (quote : Option Quote)
    (entry : HistoryEntry) :
    historyLength (saveTransactionToHistoryWith OPTIONS true now operation result
      quote HistoryFileState.missing) = some 1
    ∧ historyLength (saveTransactionToHistoryWith OPTIONS true now operation result
        quote HistoryFileState.unreadable) = some 1
    ∧ historyLength (saveTransactionToHistoryWith OPTIONS true now operation result
        quote HistoryFileState.malformed) = some 1
    ∧ historyLength (saveTransactionToHistoryWith OPTIONS true now operation result
        quote (HistoryFileState.wellFormed [entry])) = some 2
    ∧ (∀ fs : HistoryFileState,
        saveTransactionToHistoryWith OPTIONS false now operation result quote fs
          = fs) := by
  refine ⟨rfl, rfl, rfl, rfl, ?_⟩
  intro fs
  cases fs <;> rfl

/-- JS truthiness of the captured deposit id in the polling guard
`if (result.depositId && !result.success)`: absent or `0` is falsy. -/
def jsTruthyDepositId (depositId : Option Nat) : Bool :=
  match depositId with
  | some n => n != 0
  | none => false

/-- External outcomes one `executeBridgeOperation` call can observe:
the quote call's result (`getQuote` rethrows its errors), the execution
call's progress events and optional thrown error, the status endpoint's
responses, the write outcome of the history file, and the clock. -/
structure OpEnv where
  quoteResult : Except String Quote
  execEvents : List ProgressEvent
  execRaised : Option String
  pollResponses : StatusResponses
  writeOk : Bool
  now : String

/-- Observable trace of one `executeBridgeOperation` call: whether the status
poller was invoked and how many polling attempts it consumed. -/
structure OpTrace where
  polled : Bool
  pollAttempts : Nat
deriving Repr, DecidableEq

/-- A failure `result` literal `{ success: false, error: msg }` as built by
the orchestrator's rejection and catch paths. -/
def failureResult (msg : String) : ExecResult :=
  { success := false, depositId := none, originTxHash := none
    destinationTxHash := none, error := some msg }

/-- `executeBridgeOperation` from the orchestrator, with the ambient
configuration globals passed explicitly.  The surrounding `try`/`catch`
catches the only step that can throw here — the quote acquisition (`getQuote`
rethrows; `executeQuote`, the poller and the recorder catch internally) — and
records a failed result carrying the error message. -/
def bridgeWithQuote (cfg : Thresholds) (monitoring : Monitoring)
    (opts : Options) (env : OpEnv) (operation : Operation)
    (fs : HistoryFileState) (quote : Quote) : Bool × OpTrace × HistoryFileState :=
  if !quoteExceedsThresholdsWith cfg quote operation then
      let result := failureResult "Quote did not meet thresholds"
      let fs' := saveTransactionToHistoryWith opts env.writeOk env.now operation
        result (some quote) fs
      (false, { polled := false, pollAttempts := 0 }, fs')
    else if !opts.autoExecute then
      let result := failureResult "Auto-execute disabled"
      let fs' := saveTransactionToHistoryWith opts env.writeOk env.now operation
        result (some quote) fs
      (false, { polled := false, pollAttempts := 0 }, fs')
    else
      -- Execute the transaction
      let result := executeQuote quote operation env.execEvents env.execRaised
      -- Only poll if needed and depositId exists
      if jsTruthyDepositId result.depositId && !result.success then
        let polled := pollDepositStatusWith monitoring operation.originChainId
          (result.depositId.getD 0) env.pollResponses
        let result' := if polled.1 then { result with success := true } else result
        let fs' := saveTransactionToHistoryWith opts env.writeOk env.now operation
          result' (some quote) fs
        (result'.success, { polled := true, pollAttempts := polled.2 }, fs')
      else
        let fs' := saveTransactionToHistoryWith opts env.writeOk env.now operation
          result (some quote) fs
        (result.success, { polled := false, pollAttempts := 0 }, fs')

/-- `executeBridgeOperation` proper: the surrounding `try`/`catch` around the
quote acquisition, then `bridgeWithQuote` for the rest of the body. -/
def executeBridgeOperationWith (cfg : Thresholds) (monitoring : Monitoring)
    (opts : Options) (env : OpEnv) (operation : Operation)
    (fs : HistoryFileState) : Bool × OpTrace × HistoryFileState :=
  match env.quoteResult with
  | Except.error e =>
    -- the operation-boundary catch: log, record a failed result, move on
    let result := failureResult e
    let fs' := saveTransactionToHistoryWith opts env.writeOk env.now operation
      result none fs
    (false, { polled := false, pollAttempts := 0 }, fs')
  | Except.ok quote => bridgeWithQuote cfg monitoring opts env operation fs quote

/-- When the quote call succeeds, the operation reduces to its post-quote
body. -/
theorem executeBridgeOperationWith_ok {cfg : Thresholds} {monitoring : Monitoring}
    {opts : Options} {env : OpEnv} {operation : Operation}
    {fs : HistoryFileState} {quote : Quote}
    (hq : env.quoteResult = Except.ok quote) :
    executeBridgeOperationWith cfg monitoring opts env operation fs
      = bridgeWithQuote cfg monitoring opts env operation fs quote := by
  unfold executeBridgeOperationWith
  rw [hq]

/-- The `for (const operation of enabledOperations)` loop of `main`; the
`i`-th processed operation observes the environment `envs i`. -/
def mainLoopWith (cfg : Thresholds) (monitoring : Monitoring) (opts : Options)
    (envs : Nat → OpEnv) :
    List Operation → Nat → HistoryFileState → List Bool × HistoryFileState
  | [], _, fs => ([], fs)
  | operation :: rest, idx, fs =>
    let step := executeBridgeOperationWith cfg monitoring opts (envs idx) operation fs
    let next := mainLoopWith cfg monitoring opts envs rest (idx + 1) step.2.2
    (step.1 :: next.1, next.2)

/-- `main` from the orchestrator: filter the enabled operations and execute
them sequentially; the returned list holds each operation's outcome. -/
def runMainWith (cfg : Thresholds) (monitoring : Monitoring) (opts : Options)
    (operations : List Operation) (envs : Nat → OpEnv)
    (fs : HistoryFileState) : List Bool × HistoryFileState :=
  mainLoopWith cfg monitoring opts envs
    (operations.filter (fun operation => operation.enabled)) 0 fs

/-- The main loop produces exactly one outcome per processed operation. -/
theorem mainLoopWith_length (cfg : Thresholds) (monitoring : Monitoring)
    (opts : Options) (envs : Nat → OpEnv) :
    ∀ (operations : List Operation) (idx : Nat) (fs : HistoryFileState),
      (mainLoopWith cfg monitoring opts envs operations idx fs).1.length
        = operations.length := by
  intro operations
  induction operations with
  | nil => intro idx fs; rfl
  | cons operation rest ih =>
    intro idx fs
    simp only [mainLoopWith, List.length_cons]
    rw [ih]

/-- The full state space of the history file on disk.  `base` states are the
ones the recorder model above covers; `nonArrayJson` is a file whose contents
parse as valid JSON that is not an array (for example `"{}"`): the read
`try`/`catch` of `saveTransactionToHistory` passes such a value through, and
the subsequent `history.push(...)` — which sits outside both `try` blocks —
then throws a TypeError that escapes the recorder. -/
inductive HistoryFileFull where
  | base (fs : HistoryFileState)
  | nonArrayJson
deriving DecidableEq

/-- The message of the TypeError thrown by `history.push` when the parsed
history value is not an array. -/
def pushTypeErrorMsg : String := "history.push is not a function"

/-- `saveTransactionToHistory` over the full file-state space: on `base`
states it is the total recorder above; on `nonArrayJson` (with saving
enabled, so the first-line early return does not fire) it throws the
`history.push` TypeError. -/
def saveTransactionToHistoryFull (opts : Options) (writeOk : Bool)
    (now : String) (operation : Operation) (result : ExecResult)
    (quote : Option Quote) (fsf : HistoryFileFull) :
    Except String HistoryFileFull :=
  if !opts.saveHistory then Except.ok fsf
  else
    match fsf with
    | HistoryFileFull.nonArrayJson => Except.error pushTypeErrorMsg
    | HistoryFileFull.base fs =>
      Except.ok (HistoryFileFull.base
        (saveTransactionToHistoryWith opts writeOk now operation result quote fs))

/-- Away from the `nonArrayJson` state the full recorder never throws and
agrees with the total recorder model. -/
theorem saveFull_base (opts : Options) (writeOk : Bool) (now : String)
    (operation : Operation) (result : ExecResult) (quote : Option Quote)
    (fs : HistoryFileState) :
    saveTransactionToHistoryFull opts writeOk now operation result quote
        (HistoryFileFull.base fs)
      = Except.ok (HistoryFileFull.base
          (saveTransactionToHistoryWith opts writeOk now operation result quote fs)) := by
  unfold saveTransactionToHistoryFull
  cases h : opts.saveHistory with
  | true => simp [h]
  | false => simp [h, saveTransactionToHistoryWith]

/-- The post-quote body of `executeBridgeOperation` over the full file-state
space: identical to `bridgeWithQuote`, except that each history call can
throw and its exception propagates. -/
def bridgeWithQuoteFull (cfg : Thresholds) (monitoring : Monitoring)
    (opts : Options) (env : OpEnv) (operation : Operation)
    (fsf : HistoryFileFull) (quote : Quote) :
    Except String (Bool × OpTrace × HistoryFileFull) :=
  if !quoteExceedsThresholdsWith cfg quote operation then
    (saveTransactionToHistoryFull opts env.writeOk env.now operation
        (failureResult "Quote did not meet thresholds") (some quote) fsf).map
      (fun fsf' => (false, { polled := false, pollAttempts := 0 }, fsf'))
  else if !opts.autoExecute then
    (saveTransactionToHistoryFull opts env.writeOk env.now operation
        (failureResult "Auto-execute disabled") (some quote) fsf).map
      (fun fsf' => (false, { polled := false, pollAttempts := 0 }, fsf'))
  else
    let result := executeQuote quote operation env.execEvents env.execRaised
    if jsTruthyDepositId result.depositId && !result.success then
      let polled := pollDepositStatusWith monitoring operation.originChainId
        (result.depositId.getD 0) env.pollResponses
      let result' := if polled.1 then { result with success := true } else result
      (saveTransactionToHistoryFull opts env.writeOk env.now operation result'
          (some quote) fsf).map
        (fun fsf' => (result'.success, { polled := true, pollAttempts := polled.2 }, fsf'))
    else
      (saveTransactionToHistoryFull opts env.writeOk env.now operation result
          (some quote) fsf).map
        (fun fsf' => (result.success, { polled := false, pollAttempts := 0 }, fsf'))

/-- `executeBridgeOperation` over the full file-state space.  The `try` body
can now throw from the quote step or from a history call; the boundary
`catch` logs, builds a failed result, and calls the recorder once more — an
exception from that second call escapes `executeBridgeOperation` itself
(there is no further handler inside it). -/
def executeBridgeOperationFull (cfg : Thresholds) (monitoring : Monitoring)
    (opts : Options) (env : OpEnv) (operation : Operation)
    (fsf : HistoryFileFull) : Except String (Bool × OpTrace × HistoryFileFull) :=
  let body : Except String (Bool × OpTrace × HistoryFileFull) :=
    match env.quoteResult with
    | Except.error e => Except.error e
    | Except.ok quote => bridgeWithQuoteFull cfg monitoring opts env operation fsf quote
  match body with
  | Except.ok out => Except.ok out
  | Except.error e =>
    (saveTransactionToHistoryFull opts env.writeOk env.now operation
        (failureResult e) none fsf).map
      (fun fsf' => (false, { polled := false, pollAttempts := 0 }, fsf'))

/-- The `for` loop of `main` over the full file-state space: an exception
escaping `executeBridgeOperation` reaches `main`'s `catch`, which logs and
calls `process.exit(1)` — modelled by the third component carrying the fatal
error; the first component lists the outcomes of the operations that ran to
completion before it. -/
def mainLoopFull (cfg : Thresholds) (monitoring : Monitoring) (opts : Options)
    (envs : Nat → OpEnv) :
    List Operation → Nat → HistoryFileFull →
      List Bool × HistoryFileFull × Option String
  | [], _, fsf => ([], fsf, none)
  | operation :: rest, idx, fsf =>
    match executeBridgeOperationFull cfg monitoring opts (envs idx) operation fsf with
    | Except.error e => ([], fsf, some e)
    | Except.ok step =>
      let next := mainLoopFull cfg monitoring opts envs rest (idx + 1) step.2.2
      (step.1 :: next.1, next.2)

/-- `main` over the full file-state space. -/
def runMainFull (cfg : Thresholds) (monitoring : Monitoring) (opts : Options)
    (operations : List Operation) (envs : Nat → OpEnv)
    (fsf : HistoryFileFull) : List Bool × HistoryFileFull × Option String :=
  mainLoopFull cfg monitoring opts envs
    (operations.filter (fun operation => operation.enabled)) 0 fsf

/-- A sample quote-call error message. -/
def quoteErrorMsg : String := "network unreachable"

/-- A sample record timestamp. -/
def tNow : String := "2026-02-03T04:05:06Z"

/-- A sample origin-chain transaction hash. -/
def depTxHash : String := "0xabc123"

/-- An environment whose quote call throws. -/
def quoteErrorEnv : OpEnv :=
  { quoteResult := Except.error quoteErrorMsg
    execEvents := []
    execRaised := none
    pollResponses := fun _ => none
    writeOk := true
    now := tNow }

/-- C3 fails on the code: with the configured options (history saving on) and
a history file holding valid non-array JSON, the first operation's boundary
catch calls the recorder, whose `history.push` TypeError escapes
`executeBridgeOperation` and reaches `main`'s catch (`process.exit(1)`), so
the second enabled operation never runs — zero outcomes instead of two.  With
any array-like file state the same two operations both run to completion,
isolating the abort to the non-array history file. -/
theorem C3_code_bug_nonarray_history_aborts :
    runMainFull THRESHOLDS MONITORING OPTIONS [sampleOperation, sampleOperation]
        (fun _ => quoteErrorEnv) HistoryFileFull.nonArrayJson
      = ([], HistoryFileFull.nonArrayJson, some pushTypeErrorMsg)
    ∧ (List.filter (fun operation => operation.enabled)
        [sampleOperation, sampleOperation]).length = 2
    ∧ (runMainFull THRESHOLDS MONITORING OPTIONS [sampleOperation, sampleOperation]
        (fun _ => quoteErrorEnv) (HistoryFileFull.base HistoryFileState.missing)).1.length
      = 2
    ∧ (runMainFull THRESHOLDS MONITORING OPTIONS [sampleOperation, sampleOperation]
        (fun _ => quoteErrorEnv) (HistoryFileFull.base HistoryFileState.missing)).2.2
      = none := by
  refine ⟨rfl, rfl, rfl, rfl⟩

/-- C8 (amended): after execution the orchestrator polls exactly when the
result carries a truthy (nonzero) deposit id and is not already successful;
without polling the result is recorded as is, and with polling the result is
upgraded to success exactly when the poll confirms it, before being recorded
and reported. -/
theorem C8_amended_polling_guard (cfg : Thresholds) (monitoring : Monitoring)
    (opts : Options) (env : OpEnv) (operation : Operation)
    (fs : HistoryFileState) (quote : Quote)
    (hq : env.quoteResult = Except.ok quote)
    (ht : quoteExceedsThresholdsWith cfg quote operation = true)
    (ha : opts.autoExecute = true) :
    (executeBridgeOperationWith cfg monitoring opts env operation fs).2.1.polled
      = (jsTruthyDepositId
            (executeQuote quote operation env.execEvents env.execRaised).depositId
          && !(executeQuote quote operation env.execEvents env.execRaised).success)
    ∧ ((jsTruthyDepositId
            (executeQuote quote operation env.execEvents env.execRaised).depositId
          && !(executeQuote quote operation env.execEvents env.execRaised).success)
            = false →
        executeBridgeOperationWith cfg monitoring opts env operation fs
          = ((executeQuote quote operation env.execEvents env.execRaised).success,
              { polled := false, pollAttempts := 0 },
              saveTransactionToHistoryWith opts env.writeOk env.now operation
                (executeQuote quote operation env.execEvents env.execRaised)
                (some quote) fs))
    ∧ ((jsTruthyDepositId
            (executeQuote quote operation env.execEvents env.execRaised).depositId
          && !(executeQuote quote operation env.execEvents env.execRaised).success)
            = true →
        executeBridgeOperationWith cfg monitoring opts env operation fs
          = (((pollDepositStatusWith monitoring operation.originChainId
                ((executeQuote quote operation env.execEvents env.execRaised).depositId.getD 0)
                env.pollResponses).1
              || (executeQuote quote operation env.execEvents env.execRaised).success),
             { polled := true,
               pollAttempts := (pollDepositStatusWith monitoring operation.originChainId
                ((executeQuote quote operation env.execEvents env.execRaised).depositId.getD 0)
                env.pollResponses).2 },
             saveTransactionToHistoryWith opts env.writeOk env.now operation
               (if (pollDepositStatusWith monitoring operation.originChainId
                    ((executeQuote quote operation env.execEvents env.execRaised).depositId.getD 0)
                    env.pollResponses).1
                then { executeQuote quote operation env.execEvents env.execRaised
                        with success := true }
                else executeQuote quote operation env.execEvents env.execRaised)
               (some quote) fs)) := by
  rw [executeBridgeOperationWith_ok hq]
  unfold bridgeWithQuote
  rw [ht, ha]
  simp only [Bool.not_true, Bool.false_eq_true, if_false]
  by_cases hg : (jsTruthyDepositId
      (executeQuote quote operation env.execEvents env.execRaised).depositId
    && !(executeQuote quote operation env.execEvents env.execRaised).success) = true
  · rw [if_pos hg]
    refine ⟨hg.symm, fun hfalse => absurd (hg.symm.trans hfalse) (by decide), fun _ => ?_⟩
    cases hpoll : (pollDepositStatusWith monitoring operation.originChainId
        ((executeQuote quote operation env.execEvents env.execRaised).depositId.getD 0)
        env.pollResponses).1 with
    | false => simp [hpoll]
    | true => simp [hpoll]
  · rw [if_neg hg]
    rw [Bool.not_eq_true] at hg
    exact ⟨hg.symm, fun _ => rfl,
      fun htrue => absurd (hg.symm.trans htrue) (by decide)⟩

/-- A deposit progress event whose captured deposit id is `7`. -/
def depositSevenEvent : ProgressEvent :=
  { step := "deposit", status := "txSuccess", depositId := some 7
    txReceiptHash := some depTxHash, fillTxTimestamp := none }

/-- An environment that executes, captures deposit id 7, sees no fill event,
and finds the status endpoint reporting "filled". -/
def depositSevenEnv : OpEnv :=
  { quoteResult := Except.ok sampleQuote
    execEvents := [depositSevenEvent]
    execRaised := none
    pollResponses := fun _ => some filledStatus
    writeOk := true
    now := tNow }

/-- Witness for the amended C8 at a concrete run that polls and upgrades:
the guard hypotheses hold, the poller is invoked, and the recorded result is
the execution result upgraded to success by the confirming poll. -/
theorem C8_amended_polling_guard_witness :
    (depositSevenEnv.quoteResult = Except.ok sampleQuote
      ∧ quoteExceedsThresholdsWith THRESHOLDS sampleQuote sampleOperation = true
      ∧ OPTIONS.autoExecute = true
      ∧ (jsTruthyDepositId
            (executeQuote sampleQuote sampleOperation depositSevenEnv.execEvents
              depositSevenEnv.execRaised).depositId
          && !(executeQuote sampleQuote sampleOperation depositSevenEnv.execEvents
              depositSevenEnv.execRaised).success) = true)
    ∧ (executeBridgeOperationWith THRESHOLDS MONITORING OPTIONS depositSevenEnv
        sampleOperation HistoryFileState.missing).2.1.polled
      = (jsTruthyDepositId
            (executeQuote sampleQuote sampleOperation depositSevenEnv.execEvents
              depositSevenEnv.execRaised).depositId
          && !(executeQuote sampleQuote sampleOperation depositSevenEnv.execEvents
              depositSevenEnv.execRaised).success)
    ∧ executeBridgeOperationWith THRESHOLDS MONITORING OPTIONS depositSevenEnv
        sampleOperation HistoryFileState.missing
      = (((pollDepositStatusWith MONITORING sampleOperation.originChainId
            ((executeQuote sampleQuote sampleOperation depositSevenEnv.execEvents
              depositSevenEnv.execRaised).depositId.getD 0)
            depositSevenEnv.pollResponses).1
          || (executeQuote sampleQuote sampleOperation depositSevenEnv.execEvents
              depositSevenEnv.execRaised).success),
         { polled := true,
           pollAttempts := (pollDepositStatusWith MONITORING sampleOperation.originChainId
            ((executeQuote sampleQuote sampleOperation depositSevenEnv.execEvents
              depositSevenEnv.execRaised).depositId.getD 0)
            depositSevenEnv.pollResponses).2 },
         saveTransactionToHistoryWith OPTIONS depositSevenEnv.writeOk
           depositSevenEnv.now sampleOperation
           (if (pollDepositStatusWith MONITORING sampleOperation.originChainId
                ((executeQuote sampleQuote sampleOperation depositSevenEnv.execEvents
                  depositSevenEnv.execRaised).depositId.getD 0)
                depositSevenEnv.pollResponses).1
            then { executeQuote sampleQuote sampleOperation depositSevenEnv.execEvents
                    depositSevenEnv.execRaised with success := true }
            else executeQuote sampleQuote sampleOperation depositSevenEnv.execEvents
                  depositSevenEnv.execRaised)
           (some sampleQuote) HistoryFileState.missing) :=
  ⟨⟨rfl, sample_meets_thresholds, rfl, rfl⟩,
    (C8_amended_polling_guard THRESHOLDS MONITORING OPTIONS depositSevenEnv
      sampleOperation HistoryFileState.missing sampleQuote rfl
      sample_meets_thresholds rfl).1,
    (C8_amended_polling_guard THRESHOLDS MONITORING OPTIONS depositSevenEnv
      sampleOperation HistoryFileState.missing sampleQuote rfl
      sample_meets_thresholds rfl).2.2 rfl⟩

/-- A deposit progress event whose captured deposit id is `0` (falsy in JS). -/
def zeroDepositEvent : ProgressEvent :=
  { step := "deposit", status := "txSuccess", depositId := some 0
    txReceiptHash := some depTxHash, fillTxTimestamp := none }

/-- An environment that executes and captures deposit id 0 with no fill
event, while the status endpoint would report "filled". -/
def zeroDepositEnv : OpEnv :=
  { quoteResult := Except.ok sampleQuote
    execEvents := [zeroDepositEvent]
    execRaised := none
    pollResponses := fun _ => some filledStatus
    writeOk := true
    now := tNow }

/-- The execution result of the zero-deposit-id run. -/
def zeroDepositResult : ExecResult :=
  executeQuote sampleQuote sampleOperation zeroDepositEnv.execEvents
    zeroDepositEnv.execRaised

/-- C8 as stated fails on the code: here a deposit id is captured
(`some 0`) and the result is not successful, the status endpoint would even
confirm the fill, yet the JS truthiness guard `result.depositId` is falsy, so
the poller is never invoked and the recorded result stays unsuccessful. -/
theorem C8_counterexample_zero_deposit_id :
    zeroDepositResult.depositId = some 0
    ∧ zeroDepositResult.success = false
    ∧ (pollDepositStatusWith MONITORING sampleOperation.originChainId 0
        zeroDepositEnv.pollResponses).1 = true
    ∧ (executeBridgeOperationWith THRESHOLDS MONITORING OPTIONS zeroDepositEnv
        sampleOperation HistoryFileState.missing).2.1
      = { polled := false, pollAttempts := 0 }
    ∧ (executeBridgeOperationWith THRESHOLDS MONITORING OPTIONS zeroDepositEnv
        sampleOperation HistoryFileState.missing).1 = false := by
  refine ⟨rfl, rfl, by decide, ?_, ?_⟩
  · rw [executeBridgeOperationWith_ok
      (show zeroDepositEnv.quoteResult = Except.ok sampleQuote from rfl)]
    unfold bridgeWithQuote
    rw [sample_meets_thresholds]
    decide
  · rw [executeBridgeOperationWith_ok
      (show zeroDepositEnv.quoteResult = Except.ok sampleQuote from rfl)]
    unfold bridgeWithQuote
    rw [sample_meets_thresholds]
    decide

/-- With history saving disabled, the recorder is the identity on the file. -/
theorem save_disabled (opts : Options) (h : opts.saveHistory = false)
    (writeOk : Bool) (now : String) (operation : Operation)
    (result : ExecResult) (quote : Option Quote) (fs : HistoryFileState) :
    saveTransactionToHistoryWith opts writeOk now operation result quote fs = fs := by
  unfold saveTransactionToHistoryWith
  rw [h]
  rfl

/-- With history saving disabled, one operation leaves the file unchanged. -/
theorem executeBridgeOperation_fs_unchanged (cfg : Thresholds)
    (monitoring : Monitoring) (opts : Options) (h : opts.saveHistory = false)
    (env : OpEnv) (operation : Operation) (fs : HistoryFileState) :
    (executeBridgeOperationWith cfg monitoring opts env operation fs).2.2 = fs := by
  unfold executeBridgeOperationWith
  cases hq : env.quoteResult with
  | error e => simp only [save_disabled opts h]
  | ok quote =>
    unfold bridgeWithQuote
    simp only [save_disabled opts h]
    split
    · rfl
    · split
      · rfl
      · split
        · rfl
        · rfl

/-- With history saving disabled, the whole main loop leaves the file
unchanged. -/
theorem mainLoop_fs_unchanged (cfg : Thresholds) (monitoring : Monitoring)
    (opts : Options) (h : opts.saveHistory = false) (envs : Nat → OpEnv) :
    ∀ (operations : List Operation) (idx : Nat) (fs : HistoryFileState),
      (mainLoopWith cfg monitoring opts envs operations idx fs).2 = fs := by
  intro operations
  induction operations with
  | nil => intro idx fs; rfl
  | cons operation rest ih =>
    intro idx fs
    simp only [mainLoopWith]
    rw [ih, executeBridgeOperation_fs_unchanged cfg monitoring opts h]

/-- C9: when the `saveHistory` option is disabled the recorder returns
without touching the history file, and a whole orchestrator run — which still
calls the recorder for every operation — leaves the file unchanged. -/
theorem C9_saveHistory_disabled_no_writes (opts : Options)
    (h : opts.saveHistory = false) :
    (∀ (writeOk : Bool) (now : String) (operation : Operation)
        (result : ExecResult) (quote : Option Quote) (fs : HistoryFileState),
      saveTransactionToHistoryWith opts writeOk now operation result quote fs = fs)
    ∧ (∀ (cfg : Thresholds) (monitoring : Monitoring)
        (operations : List Operation) (envs : Nat → OpEnv)
        (fs : HistoryFileState),
      (runMainWith cfg monitoring opts operations envs fs).2 = fs) := by
  refine ⟨save_disabled opts h, ?_⟩
  intro cfg monitoring operations envs fs
  unfold runMainWith
  rw [mainLoop_fs_unchanged cfg monitoring opts h]

/-- The `OPTIONS` object with history saving switched off. -/
def optionsNoHistory : Options := { OPTIONS with saveHistory := false }

/-- Witness for C9: with saving disabled, recording a failed sample result
onto a missing file leaves the file missing. -/
theorem C9_saveHistory_disabled_no_writes_witness :
    optionsNoHistory.saveHistory = false
    ∧ saveTransactionToHistoryWith optionsNoHistory true tNow sampleOperation
        (failureResult quoteErrorMsg) none HistoryFileState.missing
      = HistoryFileState.missing :=
  ⟨rfl, (C9_saveHistory_disabled_no_writes optionsNoHistory rfl).1 true tNow
    sampleOperation (failureResult quoteErrorMsg) none HistoryFileState.missing⟩

/-- C10: when the execution call throws, the failure result carries no deposit
id, so the orchestrator's polling guard is false: the status endpoint is never
queried and zero polling attempts are consumed. -/
theorem C10_exec_error_no_polling (cfg : Thresholds) (monitoring : Monitoring)
    (opts : Options) (env : OpEnv) (operation : Operation)
    (fs : HistoryFileState) (e : String)
    (hr : env.execRaised = some e) :
    (∀ (quote : Quote) (events : List ProgressEvent),
      (executeQuote quote operation events (some e)).depositId = none)
    ∧ (executeBridgeOperationWith cfg monitoring opts env operation fs).2.1
      = { polled := false, pollAttempts := 0 } := by
  refine ⟨fun quote events => rfl, ?_⟩
  cases hq : env.quoteResult with
  | error e' =>
    unfold executeBridgeOperationWith
    rw [hq]
  | ok quote =>
    rw [executeBridgeOperationWith_ok hq]
    unfold bridgeWithQuote
    rw [hr]
    split
    · rfl
    · split
      · rfl
      · have hguard : (jsTruthyDepositId
            (executeQuote quote operation env.execEvents (some e)).depositId
          && !(executeQuote quote operation env.execEvents (some e)).success)
            = false := rfl
        simp only [hguard, Bool.false_eq_true, if_false]

/-- An environment whose execution call throws after no progress events. -/
def execErrorEnv : OpEnv :=
  { quoteResult := Except.ok sampleQuote
    execEvents := []
    execRaised := some quoteErrorMsg
    pollResponses := fun _ => some filledStatus
    writeOk := true
    now := tNow }

/-- Witness for C10 at a concrete throwing execution. -/
theorem C10_exec_error_no_polling_witness :
    execErrorEnv.execRaised = some quoteErrorMsg
    ∧ (executeBridgeOperationWith THRESHOLDS MONITORING OPTIONS execErrorEnv
        sampleOperation HistoryFileState.missing).2.1
      = { polled := false, pollAttempts := 0 } :=
  ⟨rfl, (C10_exec_error_no_polling THRESHOLDS MONITORING OPTIONS execErrorEnv
    sampleOperation HistoryFileState.missing quoteErrorMsg rfl).2⟩

end Across
